import Mathlib

/-!
Shallow embedding of src/ipfs-daemon.js: a supervisor that merges options,
creates the data directory, registers process listeners, and sequences
repository initialization, daemon start and shutdown. Definitions follow the
source line by line; theorems settle the specification claims.
-/

namespace IpfsDaemon

/-! ### JavaScript values and object operations -/

/-- A JavaScript value as the source uses them: strings, arrays, and plain
objects (ordered key-value lists with unique keys). -/
inductive JsValue where
  | str : String → JsValue
  | arr : List JsValue → JsValue
  | obj : List (String × JsValue) → JsValue

/-- Property lookup on a JS object (keys are unique, first match). -/
def getKey : List (String × JsValue) → String → Option JsValue
  | [], _ => none
  | (k', v) :: rest, k => if k' = k then some v else getKey rest k

/-- Property assignment on a JS object: overwrite an existing key in place,
otherwise append. -/
def setKey : List (String × JsValue) → String → JsValue → List (String × JsValue)
  | [], k, v => [(k, v)]
  | (k', v') :: rest, k, v =>
      if k' = k then (k, v) :: rest else (k', v') :: setKey rest k v

/-- Object.assign(target, source): copies every own key of source onto target,
in source order, replacing the whole value at each key (shallow). -/
def objAssign (target source : List (String × JsValue)) : List (String × JsValue) :=
  source.foldl (fun acc kv => setKey acc kv.1 kv.2) target

/-- Lines 15-28: defaultOptions. The IpfsDataDir default reads the IPFS_PATH
environment variable; the JS expression process.env.IPFS_PATH || "./ipfs"
also falls back to "./ipfs" when the variable is set to the empty string. -/
def defaultOptions (ipfsPathEnv : Option String) : List (String × JsValue) :=
  [ ("IpfsDataDir", JsValue.str (match ipfsPathEnv with
      | some s => if s = "" then "./ipfs" else s
      | none => "./ipfs")),
    ("LogDirectory", JsValue.str "/tmp"),
    ("Addresses", JsValue.obj
      [ ("API", JsValue.str "/ip4/127.0.0.1/tcp/5001"),
        ("Swarm", JsValue.arr [JsValue.str "/ip4/0.0.0.0/tcp/4001"]),
        ("Gateway", JsValue.str "/ip4/0.0.0.0/tcp/8080") ]),
    ("Flags", JsValue.arr [JsValue.str "--enable-pubsub-experiment"]) ]

/-- Lines 37-38: let opts = Object.assign(emptyObject, defaultOptions), then
Object.assign(opts, options). -/
def mergedOptions (ipfsPathEnv : Option String) (options : List (String × JsValue)) :
    List (String × JsValue) :=
  objAssign (objAssign [] (defaultOptions ipfsPathEnv)) options

/-- The merge as the spec words it: the effective configuration equals the
defaults with exactly the overlay top-level keys replaced by the overlay
values. Stated per key, to be compared with mergedOptions. -/
def shallowMergeSpec (ipfsPathEnv : Option String) (overlay : List (String × JsValue))
    (k : String) : Option JsValue :=
  match getKey overlay k with
  | some v => some v
  | none => getKey (defaultOptions ipfsPathEnv) k

/-- Two-level lookup: key k1 must hold an object, then key k2 inside it. -/
def getPath2 (o : List (String × JsValue)) (k1 k2 : String) : Option JsValue :=
  match getKey o k1 with
  | some (JsValue.obj o2) => getKey o2 k2
  | _ => none

/-! ### Substring matching

The source tests messages with String(err).match("ipfs repo needs migration")
(line 90) and String(error).match(/non-zero exit code 255/) (line 58). Neither
pattern holds a regex metacharacter, so each match succeeds exactly when the
pattern occurs as a contiguous substring. -/

/-- Does the character list l start with pat? -/
def startsWithChars : List Char → List Char → Bool
  | [], _ => true
  | _ :: _, [] => false
  | a :: as, b :: bs => decide (a = b) && startsWithChars as bs

/-- Does pat occur as a contiguous run inside l? -/
def hasSub (pat : List Char) : List Char → Bool
  | [] => startsWithChars pat []
  | b :: bs => startsWithChars pat (b :: bs) || hasSub pat bs

/-- Substring containment on strings. -/
def strContains (s pat : String) : Bool := hasSub pat.toList s.toList

/-- Line 90: the migration check on an initialization error message. -/
def migrationNeeded (errMsg : String) : Bool :=
  strContains errMsg "ipfs repo needs migration"

/-! ### Supervisor state and the startup sequence -/

/-- The ipfsd-ctl node handle as far as the source reads it: _startDaemon
reads this._daemon.gatewayAddr after a successful start (line 116). -/
structure Daemon where
  gatewayAddr : Option String

/-- The started process handle passed to the startDaemon callback: the source
reads ipfs.apiHost and ipfs.apiPort (lines 120-121). Ports are kept as the
strings that JS string concatenation produces. -/
structure IpfsProc where
  apiHost : String
  apiPort : String

/-- The supervisor fields the source mutates: GatewayAddress and APIAddress
(lines 34-35), this._options (line 39, null after shutdown) and this._daemon
(line 42, null until init and after shutdown). -/
structure SupervisorState where
  GatewayAddress : Option String
  APIAddress : Option String
  options : Option (List (String × JsValue))
  daemon : Option Daemon

/-- Lines 34-42: the constructor field initialization, with the merged
configuration of lines 37-39. -/
def initialState (ipfsPathEnv : Option String) (overlay : List (String × JsValue)) :
    SupervisorState :=
  { GatewayAddress := none
    APIAddress := none
    options := some (mergedOptions ipfsPathEnv overlay)
    daemon := none }

/-- How the callback passed to this._daemon.init leaves the _initDaemon
promise: settled by resolve, settled by reject, never settled, or aborted by
a thrown ReferenceError before either could run. -/
inductive SettleResult where
  | resolve
  | rejectMsg (msg : String)
  | hang
  | throwRef (varName : String)

/-- Lines 87-104: the init callback of _initDaemon. On an error whose message
holds the migration marker, lines 93-95 build errStr by interpolating
opts.IpfsDataDir; but opts is a let binding local to the constructor (line 37)
and is not visible inside the method _initDaemon, so evaluating the template
throws ReferenceError (opts is not defined) before reject(errStr) runs. On an
error without the marker no branch runs resolve or reject, so the promise
never settles. On success (err null) the callback resolves. -/
def initCallback (err : Option String) : SettleResult :=
  match err with
  | some e =>
      if migrationNeeded e then SettleResult.throwRef "opts" else SettleResult.hang
  | none => SettleResult.resolve

/-- JS truthiness of the optional gateway address (line 116): null, undefined
and the empty string are falsy. -/
def jsTruthy : Option String → Bool
  | none => false
  | some s => !(s == "")

/-- Lines 109-129: _startDaemon. On start failure the promise rejects with the
cause. On success, if this._daemon.gatewayAddr is truthy, GatewayAddress
becomes that address with "/ipfs/" appended (line 117); APIAddress becomes
apiHost ++ ":" ++ apiPort (line 121). -/
def startDaemonStep (s : SupervisorState) (d : Daemon)
    (startResult : Except String IpfsProc) : Except String SupervisorState :=
  match startResult with
  | Except.error e => Except.error e
  | Except.ok ipfs =>
      let s1 := match d.gatewayAddr with
        | some g =>
            if g == "" then s
            else { s with GatewayAddress := some (g ++ "/ipfs/") }
        | none => s
      Except.ok { s1 with APIAddress := some (ipfs.apiHost ++ ":" ++ ipfs.apiPort) }

/-- The two events the supervisor emits (lines 68-69). -/
inductive Event where
  | ready
  | fail (e : String)
  deriving DecidableEq

/-- Lines 66-69: the startup chain _initDaemon, then _startDaemon, then
emit("ready"), with one catch emitting "error". Modelled for runs in which
ipfsd.local succeeds (line 78 invokes the callback with err null and a node);
line 82 stores the node in this._daemon before init runs. When the init
callback hangs, no settlement reaches the chain and no event fires; when it
throws the ReferenceError, the throw happens inside the init callback, after
the promise executor has returned, so it cannot settle the promise either and
again no event fires. -/
def runStartup (s0 : SupervisorState) (d : Daemon) (initErr : Option String)
    (startResult : Except String IpfsProc) : SupervisorState × List Event :=
  let s1 := { s0 with daemon := some d }
  match initCallback initErr with
  | SettleResult.resolve =>
      match startDaemonStep s1 d startResult with
      | Except.ok s2 => (s2, [Event.ready])
      | Except.error e => (s1, [Event.fail e])
  | SettleResult.rejectMsg e => (s1, [Event.fail e])
  | SettleResult.hang => (s1, [])
  | SettleResult.throwRef _ => (s1, [])

/-! ### Shutdown, signals and the uncaught-fault listener -/

/-- A listener registered on the hosting process: one registered by this
supervisor, or one registered by unrelated code. -/
inductive Listener where
  | mine (id : Nat)
  | other (id : Nat)
  deriving DecidableEq

/-- The hosting process listener lists for the three events the source
touches: SIGINT, SIGTERM and uncaughtException. -/
structure ProcState where
  sigint : List Listener
  sigterm : List Listener
  uncaught : List Listener
  deriving DecidableEq

/-- The one external call shutdown makes: this._daemon.stopDaemon()
(line 134). -/
inductive ExtCall where
  | stopDaemon
  deriving DecidableEq

/-- Lines 132-143: _handleShutdown. The first statement is
this._daemon.stopDaemon(); when this._daemon is null (as it is after a
previous shutdown set it so on line 138) that member access throws a
TypeError and nothing else runs. Otherwise the recorded addresses, options
and daemon handle are cleared and process.removeAllListeners empties the
whole listener list of each of the three events. -/
def handleShutdown (s : SupervisorState) (_p : ProcState) :
    Except String (SupervisorState × ProcState × List ExtCall) :=
  match s.daemon with
  | none => Except.error "TypeError: this._daemon is null"
  | some _ =>
      Except.ok
        ({ GatewayAddress := none, APIAddress := none, options := none, daemon := none },
         { sigint := [], sigterm := [], uncaught := [] },
         [ExtCall.stopDaemon])

/-- Lines 72-74: stop() delegates to _handleShutdown. -/
def stop (s : SupervisorState) (p : ProcState) :
    Except String (SupervisorState × ProcState × List ExtCall) :=
  handleShutdown s p

/-- The body of a registered arrow-function handler, as the source writes it:
either a call of a method, or a bare reference to a method that is evaluated
and discarded. -/
inductive JsExpr where
  | call (methodName : String)
  | ref (methodName : String)
  deriving DecidableEq

/-- Delivering the registered event runs the arrow body; the methods it
invokes. A bare reference invokes nothing. -/
def evalHandlerBody : JsExpr → List String
  | JsExpr.call m => [m]
  | JsExpr.ref _ => []

/-- Line 52: process.on("SIGINT", () => this._handleShutdown). The arrow body
is the bare method reference, without the call parentheses. -/
def sigintHandlerBody : JsExpr := JsExpr.ref "_handleShutdown"

/-- Line 53: process.on("SIGTERM", () => this._handleShutdown), same form. -/
def sigtermHandlerBody : JsExpr := JsExpr.ref "_handleShutdown"

/-- What the uncaughtException listener did with a fault. -/
inductive FaultOutcome where
  | shutdownRan (s : SupervisorState) (p : ProcState) (calls : List ExtCall)
  | shutdownThrew (msg : String) (s : SupervisorState) (p : ProcState)
  | logged (s : SupervisorState) (p : ProcState)

/-- Lines 56-63: the uncaughtException listener. When String(error) matches
/non-zero exit code 255/ it calls this._handleShutdown(); otherwise it only
logs the error and changes nothing. -/
def onUncaughtFault (errStr : String) (s : SupervisorState) (p : ProcState) :
    FaultOutcome :=
  if strContains errStr "non-zero exit code 255" then
    match handleShutdown s p with
    | Except.ok (s', p', calls) => FaultOutcome.shutdownRan s' p' calls
    | Except.error m => FaultOutcome.shutdownThrew m s p
  else FaultOutcome.logged s p

/-! ### The constructor effect sequence and the filesystem -/

/-- The filesystem as the set of existing directories; a directory is its
path split into segments. -/
def dirEx (fs : List (List String)) (p : List String) : Bool :=
  decide (p ∈ fs)

/-- The non-empty ancestor paths of p, outermost first, p itself last. -/
def ancestors (p : List String) : List (List String) :=
  (List.range p.length).map (fun i => p.take (i + 1))

/-- Modelled from the documented behaviour of the external mkdirp library:
mkdirp.sync(dir) creates dir and every missing ancestor directory. -/
def mkdirpFS (fs : List (List String)) (p : List String) : List (List String) :=
  fs ++ (ancestors p).filter (fun q => !(dirEx fs q))

/-- A construction-time observable effect, in program order. -/
inductive Effect where
  | mkdirDir (p : List String)
  | setLogfile
  | registerListeners
  | controllerConstruct (p : List String)
  deriving DecidableEq

/-- Lines 44-66 of the constructor, as the ordered effect trace with the
filesystem threaded through: the fs.existsSync test and mkdirp.sync call
(lines 45-46), the logfile setup (line 49), the signal and fault listener
registrations (lines 52-63), then the first phase of the startup sequence,
construction of the ipfsd controller by ipfsd.local (lines 66, 78). -/
def constructorRun (fs : List (List String)) (dataDir : List String) :
    List (List String) × List Effect :=
  if dirEx fs dataDir then
    (fs, [Effect.setLogfile, Effect.registerListeners,
          Effect.controllerConstruct dataDir])
  else
    (mkdirpFS fs dataDir,
     [Effect.mkdirDir dataDir, Effect.setLogfile, Effect.registerListeners,
      Effect.controllerConstruct dataDir])

/-! ### Concrete states used by counterexamples and witnesses -/

/-- A supervisor that has reached Ready: addresses recorded, configuration and
daemon handle present. -/
def readyS : SupervisorState :=
  { GatewayAddress := some "/ip4/0.0.0.0/tcp/8080/ipfs/"
    APIAddress := some "127.0.0.1:5001"
    options := some (defaultOptions none)
    daemon := some ⟨some "/ip4/0.0.0.0/tcp/8080"⟩ }

/-- The cleared supervisor record shutdown leaves behind (lines 135-138). -/
def clearedS : SupervisorState :=
  { GatewayAddress := none, APIAddress := none, options := none, daemon := none }

/-- The emptied process listener lists shutdown leaves behind (lines 139-141). -/
def clearedP : ProcState := { sigint := [], sigterm := [], uncaught := [] }

/-- Process listener lists holding only the listeners this instance
registered. -/
def ownP : ProcState :=
  { sigint := [Listener.mine 0], sigterm := [Listener.mine 0],
    uncaught := [Listener.mine 0] }

/-- Process listener lists where unrelated code registered a listener of its
own next to this instance's. -/
def foreignP : ProcState :=
  { sigint := [Listener.other 7, Listener.mine 0]
    sigterm := [Listener.other 7, Listener.mine 0]
    uncaught := [Listener.other 7, Listener.mine 0] }

/-! ### Object-merge lemmas -/

theorem getKey_setKey_self (o : List (String × JsValue)) (k : String) (v : JsValue) :
    getKey (setKey o k v) k = some v := by
  induction o with
  | nil => simp [setKey, getKey]
  | cons hd tl ih =>
      obtain ⟨k', v'⟩ := hd
      by_cases h : k' = k
      · simp [setKey, h, getKey]
      · simp [setKey, h, getKey, ih]

theorem getKey_setKey_ne (o : List (String × JsValue)) (k k' : String) (v : JsValue)
    (h : k ≠ k') : getKey (setKey o k v) k' = getKey o k' := by
  induction o with
  | nil => simp [setKey, getKey, h]
  | cons hd tl ih =>
      obtain ⟨k₀, v₀⟩ := hd
      by_cases h0 : k₀ = k
      · subst h0
        simp [setKey, getKey, h]
      · simp [setKey, h0, getKey, ih]

theorem getKey_eq_none (o : List (String × JsValue)) (k : String)
    (h : k ∉ o.map Prod.fst) : getKey o k = none := by
  induction o with
  | nil => rfl
  | cons hd tl ih =>
      obtain ⟨k₀, v₀⟩ := hd
      simp only [List.map_cons, List.mem_cons] at h
      push_neg at h
      simp [getKey, Ne.symm h.1, ih h.2]

theorem getKey_objAssign (source : List (String × JsValue))
    (hnd : (source.map Prod.fst).Nodup) (target : List (String × JsValue))
    (k : String) :
    getKey (objAssign target source) k =
      match getKey source k with
      | some v => some v
      | none => getKey target k := by
  induction source generalizing target with
  | nil => rfl
  | cons hd tl ih =>
      obtain ⟨k₀, v₀⟩ := hd
      simp only [List.map_cons, List.nodup_cons] at hnd
      have step : objAssign target ((k₀, v₀) :: tl) = objAssign (setKey target k₀ v₀) tl :=
        rfl
      rw [step, ih hnd.2]
      by_cases hk : k₀ = k
      · subst hk
        rw [getKey_eq_none tl k₀ hnd.1]
        simp [getKey, getKey_setKey_self]
      · simp [getKey, hk, getKey_setKey_ne target k₀ k v₀ hk]

theorem getKey_defaults_copy (env : Option String) (k : String) :
    getKey (objAssign [] (defaultOptions env)) k = getKey (defaultOptions env) k := by
  have hnd : ((defaultOptions env).map Prod.fst).Nodup := by
    have hlist : (defaultOptions env).map Prod.fst
        = ["IpfsDataDir", "LogDirectory", "Addresses", "Flags"] := rfl
    rw [hlist]
    decide
  rw [getKey_objAssign _ hnd]
  cases h : getKey (defaultOptions env) k <;> simp [getKey]

theorem mergedOptions_eq_spec (env : Option String) (overlay : List (String × JsValue))
    (hnd : (overlay.map Prod.fst).Nodup) (k : String) :
    getKey (mergedOptions env overlay) k = shallowMergeSpec env overlay k := by
  unfold mergedOptions shallowMergeSpec
  rw [getKey_objAssign overlay hnd]
  cases h : getKey overlay k <;> simp [getKey_defaults_copy]

/-! ### Substring lemmas -/

theorem startsWithChars_iff (pat l : List Char) :
    startsWithChars pat l = true ↔ ∃ suf, l = pat ++ suf := by
  induction pat generalizing l with
  | nil => simp [startsWithChars]
  | cons a as ih =>
      cases l with
      | nil => simp [startsWithChars]
      | cons b bs =>
          simp only [startsWithChars, Bool.and_eq_true, decide_eq_true_eq, ih,
            List.cons_append, List.cons.injEq]
          constructor
          · rintro ⟨rfl, suf, rfl⟩
            exact ⟨suf, rfl, rfl⟩
          · rintro ⟨suf, rfl, rfl⟩
            exact ⟨rfl, suf, rfl⟩

theorem hasSub_iff (pat l : List Char) :
    hasSub pat l = true ↔ ∃ pre suf, l = pre ++ pat ++ suf := by
  induction l with
  | nil =>
      rw [hasSub, startsWithChars_iff]
      constructor
      · rintro ⟨suf, h⟩
        exact ⟨[], suf, by simpa using h⟩
      · rintro ⟨pre, suf, h⟩
        have h' := h.symm
        rw [List.append_assoc] at h'
        rcases List.append_eq_nil.mp h' with ⟨-, h2⟩
        exact ⟨suf, h2.symm⟩
  | cons b bs ih =>
      rw [hasSub, Bool.or_eq_true, startsWithChars_iff, ih]
      constructor
      · rintro (⟨suf, h⟩ | ⟨pre, suf, h⟩)
        · exact ⟨[], suf, by simpa using h⟩
        · exact ⟨b :: pre, suf, by simp [h]⟩
      · rintro ⟨pre, suf, h⟩
        cases pre with
        | nil => exact Or.inl ⟨suf, by simpa using h⟩
        | cons p ps =>
            simp only [List.cons_append, List.cons.injEq] at h
            exact Or.inr ⟨ps, suf, h.2⟩

/-! ### Claim theorems -/

/-- C1: for every run in which all four startup phases succeed, exactly one
ready event fires, APIAddress equals host ++ ":" ++ port from the started
process, and GatewayAddress equals the reported gateway address with "/ipfs/"
appended when the process reports one, and remains null when it does not. -/
theorem C1_ready_event (env : Option String) (overlay : List (String × JsValue))
    (d : Daemon) (host port : String) :
    (runStartup (initialState env overlay) d none (Except.ok ⟨host, port⟩)).2
        = [Event.ready] ∧
    (runStartup (initialState env overlay) d none (Except.ok ⟨host, port⟩)).1.APIAddress
        = some (host ++ ":" ++ port) ∧
    (∀ g, d.gatewayAddr = some g → g ≠ "" →
      (runStartup (initialState env overlay) d none
          (Except.ok ⟨host, port⟩)).1.GatewayAddress = some (g ++ "/ipfs/")) ∧
    (d.gatewayAddr = none →
      (runStartup (initialState env overlay) d none
          (Except.ok ⟨host, port⟩)).1.GatewayAddress = none) := by
  obtain ⟨ga⟩ := d
  cases ga with
  | none =>
      refine ⟨rfl, rfl, ?_, fun _ => rfl⟩
      intro g hg
      exact Option.noConfusion hg
  | some g =>
      by_cases hg : g = ""
      · subst hg
        refine ⟨rfl, rfl, ?_, fun hn => Option.noConfusion hn⟩
        intro g' hg' hne
        obtain rfl : "" = g' := by simpa using hg'
        exact absurd rfl hne
      · have hb : (g == "") = false := by simpa using hg
        refine ⟨?_, ?_, ?_, fun hn => Option.noConfusion hn⟩
        · simp [runStartup, initCallback, startDaemonStep, hb]
        · simp [runStartup, initCallback, startDaemonStep, hb]
        · intro g' hg' _
          obtain rfl : g = g' := by simpa using hg'
          simp [runStartup, initCallback, startDaemonStep, hb]

/-- C2: the effective configuration equals the documented defaults with
exactly the overlay top-level keys replaced by the overlay values (shallow
merge, whole values replaced); and the overlay setting IpfsDataDir to
"/tmp/x" keeps Addresses.API at its default while IpfsDataDir becomes
"/tmp/x". -/
theorem C2_shallow_merge (env : Option String) (overlay : List (String × JsValue))
    (hnd : (overlay.map Prod.fst).Nodup) :
    (∀ k, getKey (mergedOptions env overlay) k = shallowMergeSpec env overlay k) ∧
    getPath2 (mergedOptions none [("IpfsDataDir", JsValue.str "/tmp/x")])
        "Addresses" "API" = some (JsValue.str "/ip4/127.0.0.1/tcp/5001") ∧
    getKey (mergedOptions none [("IpfsDataDir", JsValue.str "/tmp/x")]) "IpfsDataDir"
        = some (JsValue.str "/tmp/x") :=
  ⟨fun k => mergedOptions_eq_spec env overlay hnd k, rfl, rfl⟩

/-- C2 witness: the merge equation instantiated at the documented example
overlay and a concrete key. -/
theorem C2_shallow_merge_witness :
    getKey (mergedOptions none [("IpfsDataDir", JsValue.str "/tmp/x")]) "LogDirectory"
      = shallowMergeSpec none [("IpfsDataDir", JsValue.str "/tmp/x")] "LogDirectory" :=
  (C2_shallow_merge none [("IpfsDataDir", JsValue.str "/tmp/x")]
      (by decide)).1 "LogDirectory"

/-- C3: at a repository-initialization failure whose message does not hold
"ipfs repo needs migration", the init callback runs neither resolve nor
reject, and the startup chain fires no event at all: the failure is not
surfaced and the startup hangs, against the claim. -/
theorem C3_init_failure_hangs :
    initCallback (some "Error: lock permission denied") = SettleResult.hang ∧
    (runStartup (initialState none []) ⟨none⟩ (some "Error: lock permission denied")
        (Except.ok ⟨"127.0.0.1", "5001"⟩)).2 = [] :=
  ⟨rfl, rfl⟩

/-- C4: at a repository-initialization failure whose message holds
"ipfs repo needs migration", the init callback aborts with a ReferenceError
on the out-of-scope variable opts before the reject carrying the remediation
text can run, and the startup chain fires no event, against the claim. -/
theorem C4_migration_throws :
    initCallback (some "Error: ipfs repo needs migration")
        = SettleResult.throwRef "opts" ∧
    (runStartup (initialState none []) ⟨none⟩
        (some "Error: ipfs repo needs migration")
        (Except.ok ⟨"127.0.0.1", "5001"⟩)).2 = [] :=
  ⟨rfl, rfl⟩

/-- C5 counterexample: from a Ready supervisor the first stop() succeeds and
clears the state, but the second stop() throws a TypeError on the null daemon
handle instead of observing the cleared state benignly: stop is not
idempotent as claimed. -/
theorem C5_counterexample :
    stop readyS ownP = Except.ok (clearedS, clearedP, [ExtCall.stopDaemon]) ∧
    stop clearedS clearedP = Except.error "TypeError: this._daemon is null" :=
  ⟨rfl, rfl⟩

/-- C5 amended: for every supervisor that has reached Ready (daemon handle
present), the first stop() requests stopDaemon and clears the recorded state;
a second stop() finds this._daemon null and throws a TypeError before making
any external call, so the double call is not safe. -/
theorem C5_amended_stop_twice (s : SupervisorState) (p : ProcState) (d : Daemon)
    (h : s.daemon = some d) :
    stop s p = Except.ok (clearedS, clearedP, [ExtCall.stopDaemon]) ∧
    stop clearedS clearedP = Except.error "TypeError: this._daemon is null" := by
  refine ⟨?_, rfl⟩
  simp [stop, handleShutdown, h, clearedS, clearedP]

/-- C5 witness: the amended statement at the concrete Ready supervisor. -/
theorem C5_amended_witness :
    stop readyS ownP = Except.ok (clearedS, clearedP, [ExtCall.stopDaemon]) ∧
    stop clearedS clearedP = Except.error "TypeError: this._daemon is null" :=
  C5_amended_stop_twice readyS ownP ⟨some "/ip4/0.0.0.0/tcp/8080"⟩ rfl

/-- C6: the arrow functions registered for SIGINT and SIGTERM have as body
the bare method reference this._handleShutdown, so delivering a termination
signal invokes no method at all; a call body would have invoked
_handleShutdown. The signals do not trigger the shutdown sequence, against
the claim. -/
theorem C6_signal_handler_noop :
    evalHandlerBody sigintHandlerBody = [] ∧
    evalHandlerBody sigtermHandlerBody = [] ∧
    evalHandlerBody (JsExpr.call "_handleShutdown") = ["_handleShutdown"] :=
  ⟨rfl, rfl, rfl⟩

/-- C7: an uncaught fault whose string form matches the interrupt-equivalent
pattern runs exactly the shutdown path of an explicit stop(), with the same
resulting state, listener lists and external calls; a fault with any other
message is only logged and the supervisor state is left unchanged. -/
theorem C7_fault_routes (e : String) (s : SupervisorState) (p : ProcState) :
    (strContains e "non-zero exit code 255" = true →
      ∀ s' p' c, stop s p = Except.ok (s', p', c) →
        onUncaughtFault e s p = FaultOutcome.shutdownRan s' p' c) ∧
    (strContains e "non-zero exit code 255" = false →
      onUncaughtFault e s p = FaultOutcome.logged s p) := by
  constructor
  · intro hm s' p' c hstop
    have hh : handleShutdown s p = Except.ok (s', p', c) := hstop
    simp [onUncaughtFault, hm, hh]
  · intro hm
    simp [onUncaughtFault, hm]

/-- C7 witness: both branches at concrete faults over the Ready supervisor. -/
theorem C7_fault_routes_witness :
    onUncaughtFault "Error: non-zero exit code 255" readyS ownP
        = FaultOutcome.shutdownRan clearedS clearedP [ExtCall.stopDaemon] ∧
    onUncaughtFault "Error: something else" readyS ownP
        = FaultOutcome.logged readyS ownP :=
  ⟨(C7_fault_routes "Error: non-zero exit code 255" readyS ownP).1 (by decide)
      clearedS clearedP [ExtCall.stopDaemon] rfl,
   (C7_fault_routes "Error: something else" readyS ownP).2 (by decide)⟩

/-- C8: when the configured data directory does not exist, the constructor
trace creates it as its first effect, before the controller-construction
phase, and afterwards the directory and every missing ancestor exist on the
filesystem. -/
theorem C8_mkdir_before_controller (fs : List (List String)) (dataDir : List String)
    (h : dirEx fs dataDir = false) :
    (constructorRun fs dataDir).2
        = Effect.mkdirDir dataDir
            :: [Effect.setLogfile, Effect.registerListeners,
                Effect.controllerConstruct dataDir] ∧
    (∀ k, k < dataDir.length →
      dirEx (constructorRun fs dataDir).1 (dataDir.take (k + 1)) = true) := by
  constructor
  · simp [constructorRun, h]
  · intro k hk
    simp only [constructorRun, h, Bool.false_eq_true, if_false]
    have hmem : dataDir.take (k + 1) ∈ ancestors dataDir := by
      simp only [ancestors, List.mem_map, List.mem_range]
      exact ⟨k, hk, rfl⟩
    by_cases hin : dataDir.take (k + 1) ∈ fs
    · simp [mkdirpFS, dirEx, List.mem_append, hin]
    · simp only [mkdirpFS, dirEx, List.mem_append, decide_eq_true_eq]
      refine Or.inr ?_
      simp only [List.mem_filter, Bool.not_eq_eq_eq_not, Bool.not_true,
        decide_eq_false_iff_not]
      exact ⟨hmem, hin⟩

/-- C8 witness: the statement at the empty filesystem and the directory
tmp/x. -/
theorem C8_witness :
    dirEx [] ["tmp", "x"] = false ∧
    ((constructorRun [] ["tmp", "x"]).2
        = Effect.mkdirDir ["tmp", "x"]
            :: [Effect.setLogfile, Effect.registerListeners,
                Effect.controllerConstruct ["tmp", "x"]] ∧
      (∀ k, k < (["tmp", "x"] : List String).length →
        dirEx (constructorRun [] ["tmp", "x"]).1
            ((["tmp", "x"] : List String).take (k + 1)) = true)) :=
  ⟨by decide, C8_mkdir_before_controller [] ["tmp", "x"] (by decide)⟩

/-- C9 counterexample: a listener registered by other code is on the process
before shutdown and gone after it: removeAllListeners does not leave foreign
listeners in place, against the claim. -/
theorem C9_counterexample :
    Listener.other 7 ∈ foreignP.sigint ∧
    handleShutdown readyS foreignP
        = Except.ok (clearedS, clearedP, [ExtCall.stopDaemon]) ∧
    Listener.other 7 ∉ clearedP.sigint :=
  ⟨by decide, rfl, by decide⟩

/-- C9 amended: every shutdown that runs (daemon handle present) empties the
whole SIGINT, SIGTERM and uncaughtException listener lists of the hosting
process: a subsequent instance accumulates no duplicate handlers, but
listeners registered by other code are removed as well, not left in place. -/
theorem C9_amended_removes_all (s : SupervisorState) (p : ProcState) (d : Daemon)
    (h : s.daemon = some d) :
    ∃ s' calls, handleShutdown s p
        = Except.ok (s', { sigint := [], sigterm := [], uncaught := [] }, calls) := by
  refine ⟨clearedS, [ExtCall.stopDaemon], ?_⟩
  simp [handleShutdown, h, clearedS]

/-- C9 witness: the amended statement at the Ready supervisor with a foreign
listener present. -/
theorem C9_amended_witness :
    ∃ s' calls, handleShutdown readyS foreignP
        = Except.ok (s', { sigint := [], sigterm := [], uncaught := [] }, calls) :=
  C9_amended_removes_all readyS foreignP ⟨some "/ip4/0.0.0.0/tcp/8080"⟩ rfl

/-- C10: the uncaught-fault listener triggers the shutdown path exactly when
the string form of the fault holds "non-zero exit code 255" as a contiguous
substring; otherwise the fault is only logged. -/
theorem C10_pattern_iff (e : String) (s : SupervisorState) (p : ProcState) :
    ¬(onUncaughtFault e s p = FaultOutcome.logged s p) ↔
      ∃ pre suf, e.toList = pre ++ "non-zero exit code 255".toList ++ suf := by
  by_cases hm : strContains e "non-zero exit code 255" = true
  · constructor
    · intro _
      exact (hasSub_iff _ _).mp hm
    · intro _
      simp only [onUncaughtFault, hm, if_true]
      cases h : handleShutdown s p with
      | ok v =>
          obtain ⟨s', p', c⟩ := v
          simp
      | error m => simp
  · have hm' : strContains e "non-zero exit code 255" = false := by
      simpa using hm
    constructor
    · intro hne
      exact absurd (by simp [onUncaughtFault, hm']) hne
    · rintro ⟨pre, suf, hps⟩
      have : strContains e "non-zero exit code 255" = true :=
        (hasSub_iff _ _).mpr ⟨pre, suf, hps⟩
      simp [hm'] at this

end IpfsDaemon
